import Mathlib

/-!
Shallow embedding of the repository's two source files:

* `knowledge_graph.py` — a literal concept table (name ↦ (definition, related))
  and the exact-match lookup `get_concept_info`.
* `slides.py` — the template-based slide-deck generator `generate_slide_deck`,
  the word-count truncation helper `truncate_text`, the `safe_join` helper,
  the minimal visualization-stub writer `write_simple_manim`, and the
  orchestration entry point `main` (here `mainModel`).

Python strings are embedded as `List Char`; Python `str.split()` (split on
whitespace runs, discarding empty pieces) is `words`; `" ".join` /
`"\n\n".join` are `joinWith`.  The generation timestamp
(`datetime.utcnow().isoformat()`) is passed in as an explicit parameter `now`,
since it is the single impure input of `generate_slide_deck`.
-/

namespace SlidesKG

/-- Character-list view of a Lean string literal (Python `str` values). -/
def str (s : String) : List Char := s.data

/-- Whitespace test used by Python `str.split()` with no separator. -/
def isWs (c : Char) : Bool :=
  c = ' ' || c = '\t' || c = '\n' || c = '\r' || c = '\x0b' || c = '\x0c'

/-- Accumulator worker for `words`: `cur` holds the reversed current chunk. -/
def wordsAux : List Char → List Char → List (List Char)
  | [], cur => if cur = [] then [] else [cur.reverse]
  | c :: cs, cur =>
      if isWs c then
        if cur = [] then wordsAux cs [] else cur.reverse :: wordsAux cs []
      else wordsAux cs (c :: cur)

/-- Python `text.split()`: split on whitespace runs, dropping empty pieces. -/
def words (s : List Char) : List (List Char) :=
  wordsAux s []

/-- Python `sep.join(pieces)`. -/
def joinWith (sep : List Char) : List (List Char) → List Char
  | [] => []
  | [x] => x
  | x :: y :: xs => x ++ sep ++ joinWith sep (y :: xs)

/-- `slides.py` `truncate_text(text, max_words)`:
`" ".join(words[:max_words]) + ("..." if len(words) > max_words else "")`
with `words = text.split()`. -/
def truncate_text (text : List Char) (max_words : Nat) : List Char :=
  joinWith (str " ") ((words text).take max_words) ++
    (if max_words < (words text).length then str "..." else [])

/-- `slides.py` `safe_join(lst)`: `", ".join([str(x) for x in lst if x])` —
comma-join, dropping empty (falsy) entries. -/
def safe_join (lst : List (List Char)) : List Char :=
  joinWith (str ", ") (lst.filter (fun x => !x.isEmpty))

/-- `TITLE_INTRO_TEMPLATE.format(concept=...)`. -/
def TITLE_INTRO_TEMPLATE (concept : List Char) : List Char :=
  str "Welcome — today we\x27ll learn about " ++ concept ++ str "."

/-- `DEFINITION_TEMPLATE_BEGINNER.format(concept=..., definition=...)`. -/
def DEFINITION_TEMPLATE_BEGINNER (concept definition : List Char) : List Char :=
  concept ++ str " can be understood as: " ++ definition ++
    str " I\x27ll explain the idea step by step with a simple example."

/-- `DEFINITION_TEMPLATE_ADVANCED.format(concept=..., definition=...)`. -/
def DEFINITION_TEMPLATE_ADVANCED (concept definition : List Char) : List Char :=
  str "Formally, " ++ concept ++ str " is: " ++ definition ++
    str " We\x27ll also highlight important properties and implications."

/-- `EXAMPLE_TEMPLATE.format(example_brief=..., example_point=...)`. -/
def EXAMPLE_TEMPLATE (example_brief example_point : List Char) : List Char :=
  str "Example: Consider " ++ example_brief ++
    str ". This demonstrates the main idea: " ++ example_point ++ str "."

/-- `RELATED_TEMPLATE.format(related_list=...)`. -/
def RELATED_TEMPLATE (related_list : List Char) : List Char :=
  str "Related topics you might want to learn next: " ++ related_list ++ str "."

/-- The local `example_brief` of `generate_slide_deck`: first related topic if
any (`if related:` is Python truthiness, i.e. non-emptiness), else the generic
placeholder. -/
def exampleBrief (related : List (List Char)) : List Char :=
  match related with
  | r0 :: _ => str "a simple case involving " ++ r0
  | [] => str "a simple conceptual scenario"

/-- The local `example_point` of `generate_slide_deck`. -/
def examplePoint (concept_name : List Char) (related : List (List Char)) :
    List Char :=
  match related with
  | r0 :: _ =>
      str "how " ++ concept_name ++ str " uses " ++ r0 ++
        str " in structure/operation"
  | [] => str "the core intuition behind " ++ concept_name

/-- One slide dict of `slides.py`.  The title slide carries `subtitle` and no
`bullets`/`notes`; content slides carry `bullets`/`notes` and no `subtitle`. -/
structure Slide where
  type : List Char
  title : List Char
  subtitle : Option (List Char)
  bullets : Option (List (List Char))
  notes : Option (List Char)
  duration_sec : Nat
deriving DecidableEq

/-- The deck dict of `slides.py`. -/
structure Deck where
  concept : List Char
  generated_at : List Char
  audience_level : List Char
  slides : List Slide
deriving DecidableEq

/-- `slides.py` `generate_slide_deck(concept_name, definition, related,
audience_level)`.  `now` stands for `datetime.utcnow().isoformat()`; the code
records `now + "Z"` in the deck and never branches on it.  Returns the deck and
the full narration script (`"\n\n".join(narration_lines)`). -/
def generate_slide_deck (concept_name definition : List Char)
    (related : List (List Char)) (audience_level : List Char)
    (now : List Char) : Deck × List Char :=
  let title_slide : Slide :=
    { type := str "title"
      title := str "Introduction to " ++ concept_name
      subtitle := some (truncate_text definition 15)
      bullets := none
      notes := none
      duration_sec := 4 }
  let definition_text : List Char :=
    if audience_level = str "beginner" then
      DEFINITION_TEMPLATE_BEGINNER concept_name definition
    else
      DEFINITION_TEMPLATE_ADVANCED concept_name definition
  let definition_slide : Slide :=
    { type := str "definition"
      title := str "What is " ++ concept_name ++ str "?"
      subtitle := none
      bullets := some [truncate_text definition 20]
      notes := some definition_text
      duration_sec := 10 }
  let example_notes : List Char :=
    EXAMPLE_TEMPLATE (exampleBrief related) (examplePoint concept_name related)
  let example_slide : Slide :=
    { type := str "example"
      title := str "Simple example: " ++ truncate_text (exampleBrief related) 6
      subtitle := none
      bullets := some [str "Set up the scenario",
        str "Apply the core idea of " ++ concept_name,
        str "Observe the result / takeaway"]
      notes := some example_notes
      duration_sec := 12 }
  let related_list_str : List Char :=
    if related.isEmpty then str "No related topics available."
    else safe_join related
  let related_slide : Slide :=
    { type := str "related"
      title := str "Related topics & next steps"
      subtitle := none
      bullets := some (if related.isEmpty then
        [str "Further reading not available"] else related)
      notes := some (RELATED_TEMPLATE related_list_str)
      duration_sec := 6 }
  let summary : List Char :=
    str "In summary, " ++ concept_name ++ str ": " ++
      truncate_text definition 20
  let summary_slide : Slide :=
    { type := str "summary"
      title := str "Summary"
      subtitle := none
      bullets := some [truncate_text definition 20]
      notes := some summary
      duration_sec := 6 }
  let narration_lines : List (List Char) :=
    [TITLE_INTRO_TEMPLATE concept_name, definition_text, example_notes,
      RELATED_TEMPLATE related_list_str, summary]
  let deck : Deck :=
    { concept := concept_name
      generated_at := now ++ str "Z"
      audience_level := audience_level
      slides := [title_slide, definition_slide, example_slide, related_slide,
        summary_slide] }
  (deck, joinWith (str "\n\n") narration_lines)

/-- Deck component of a `generate_slide_deck` call. -/
def deckOf (concept_name definition : List Char) (related : List (List Char))
    (audience_level now : List Char) : Deck :=
  (generate_slide_deck concept_name definition related audience_level now).1

/-- Slide `i` of a deck, if present. -/
def slideAt (dk : Deck) (i : Nat) : Option Slide :=
  dk.slides[i]?

/-- `bullets` of slide `i` of a deck, if both are present. -/
def slideBullets (dk : Deck) (i : Nat) : Option (List (List Char)) :=
  (slideAt dk i).bind Slide.bullets

/-- `notes` of slide `i` of a deck, if both are present. -/
def slideNotes (dk : Deck) (i : Nat) : Option (List Char) :=
  (slideAt dk i).bind Slide.notes

/-- `write_simple_manim(deck)`: returns the `(title, subtitle)` pair embedded
(as escaped string literals) into the generated scene file, or `none` (no file
written) when the deck has no slides.  The surrounding fixed scene text is
outside the modelled scope (spec §1), only the written/not-written outcome and
its slide-0 inputs matter here. -/
def write_simple_manim (deck : Deck) : Option (List Char × List Char) :=
  match deck.slides with
  | [] => none
  | first :: _ => some (first.title, first.subtitle.getD (str ""))

/-- Exact-match association lookup (Python `name in table` / `table[name]`). -/
def lookupKG {β : Type} : List (List Char × β) → List Char → Option β
  | [], _ => none
  | (k, v) :: rest, q => if k = q then some v else lookupKG rest q

/-- The literal `knowledge_graph` table of `knowledge_graph.py`
(name ↦ (definition, related)). -/
def knowledge_graph : List (List Char × (List Char × List (List Char))) :=
  [(str "Data Structures",
    (str "Ways to store and organize data efficiently.",
     [str "Arrays", str "Linked List", str "Trees"])),
   (str "Algorithms",
    (str "Step-by-step procedures to solve problems.",
     [str "Sorting", str "Searching"])),
   (str "Trees",
    (str "A hierarchical data structure with nodes.",
     [str "Binary Tree", str "Graphs"])),
   (str "Graphs",
    (str "A collection of nodes connected by edges.",
     [str "Trees", str "Graph Traversal"]))]

/-- `knowledge_graph.py` `get_concept_info(concept)` over an explicit table:
`(definition, related)` on exact key match, `(None, [])` otherwise. -/
def get_concept_info (kg : List (List Char × (List Char × List (List Char))))
    (concept : List Char) : Option (List Char) × List (List Char) :=
  match lookupKG kg concept with
  | some dr => (some dr.1, dr.2)
  | none => (none, [])

/-- Observable outcome of one `main(concept_query, audience_level)` run:
whether the not-found message was printed, and the contents written to
`slides.json`, `script.txt` and the visualization stub (each `none` when the
file is not written). -/
structure MainResult where
  notFoundReported : Bool
  slidesFile : Option Deck
  scriptFile : Option (List Char)
  manimFile : Option (List Char × List Char)
deriving DecidableEq

/-- `slides.py` `main(concept_query, audience_level)` over an explicit loaded
table `kg` and timestamp `now`: on a missing key it reports not-found and
returns with no file written; otherwise it generates the deck and writes all
three outputs. -/
def mainModel (kg : List (List Char × (List Char × List (List Char))))
    (concept_query audience_level now : List Char) : MainResult :=
  match lookupKG kg concept_query with
  | none =>
      { notFoundReported := true
        slidesFile := none
        scriptFile := none
        manimFile := none }
  | some dr =>
      let res := generate_slide_deck concept_query dr.1 dr.2 audience_level now
      { notFoundReported := false
        slidesFile := some res.1
        scriptFile := some res.2
        manimFile := write_simple_manim res.1 }

/-- Restatement of the spec's truncation rule, for comparison with
`truncate_text`: split on whitespace; if at most `N` words, rejoin them with
single spaces and append nothing; otherwise keep the first `N` words, rejoin,
and append the literal ellipsis suffix. -/
def truncateSpec (text : List Char) (N : Nat) : List Char :=
  if (words text).length ≤ N then joinWith (str " ") (words text)
  else joinWith (str " ") ((words text).take N) ++ str "..."

/-- Every piece produced by `wordsAux` is non-empty and whitespace-free,
provided the pending chunk `cur` is whitespace-free. -/
lemma wordsAux_clean : ∀ (s cur : List Char), (∀ c ∈ cur, isWs c = false) →
    ∀ w ∈ wordsAux s cur, w ≠ [] ∧ ∀ c ∈ w, isWs c = false := by
  intro s
  induction s with
  | nil =>
      intro cur hcur w hw
      by_cases h : cur = []
      · simp [wordsAux, h] at hw
      · simp [wordsAux, h] at hw
        subst hw
        refine ⟨by simpa using h, fun c hc => hcur c (by simpa using hc)⟩
  | cons a s ih =>
      intro cur hcur w hw
      cases ha : isWs a with
      | true =>
          by_cases h : cur = []
          · simp [wordsAux, ha, h] at hw
            exact ih [] (by simp) w hw
          · simp [wordsAux, ha, h] at hw
            rcases hw with hw | hw
            · subst hw
              refine ⟨by simpa using h, fun c hc => hcur c (by simpa using hc)⟩
            · exact ih [] (by simp) w hw
      | false =>
          simp [wordsAux, ha] at hw
          refine ih (a :: cur) ?_ w hw
          intro c hc
          rcases List.mem_cons.mp hc with rfl | hc
          · exact ha
          · exact hcur c hc

/-- Words of `words s` are non-empty and contain no whitespace. -/
lemma words_clean (s : List Char) :
    ∀ w ∈ words s, w ≠ [] ∧ ∀ c ∈ w, isWs c = false :=
  wordsAux_clean s [] (by simp)

/-- Consuming a whitespace-free chunk moves it into the accumulator. -/
lemma wordsAux_chunk : ∀ (w s cur : List Char), (∀ c ∈ w, isWs c = false) →
    wordsAux (w ++ s) cur = wordsAux s (w.reverse ++ cur) := by
  intro w
  induction w with
  | nil => intro s cur _; simp
  | cons a w ih =>
      intro s cur hw
      have ha : isWs a = false := hw a (List.mem_cons_self a w)
      calc wordsAux ((a :: w) ++ s) cur
          = wordsAux (w ++ s) (a :: cur) := by simp [wordsAux, ha]
        _ = wordsAux s (w.reverse ++ (a :: cur)) :=
            ih s (a :: cur) (fun c hc => hw c (List.mem_cons_of_mem a hc))
        _ = wordsAux s ((a :: w).reverse ++ cur) := by
            simp [List.reverse_cons, List.append_assoc]

/-- Splitting a single non-empty whitespace-free word recovers it. -/
lemma words_single (w : List Char) (hne : w ≠ [])
    (hw : ∀ c ∈ w, isWs c = false) : words w = [w] := by
  have h1 : wordsAux (w ++ []) [] = wordsAux [] (w.reverse ++ []) :=
    wordsAux_chunk w [] [] hw
  simp only [List.append_nil] at h1
  unfold words
  rw [h1]
  simp [wordsAux, hne]

/-- Splitting a single-space join of clean words recovers exactly the words. -/
lemma words_joinWith : ∀ (ws : List (List Char)),
    (∀ w ∈ ws, w ≠ [] ∧ ∀ c ∈ w, isWs c = false) →
    words (joinWith (str " ") ws) = ws := by
  intro ws
  induction ws with
  | nil => intro _; rfl
  | cons w ws ih =>
      intro h
      have hw := h w (List.mem_cons_self w ws)
      cases ws with
      | nil => exact words_single w hw.1 hw.2
      | cons w2 rest =>
          have hrest : ∀ x ∈ w2 :: rest, x ≠ [] ∧ ∀ c ∈ x, isWs c = false :=
            fun x hx => h x (List.mem_cons_of_mem w hx)
          have hstep : joinWith (str " ") (w :: w2 :: rest) =
              w ++ (' ' :: joinWith (str " ") (w2 :: rest)) := by
            simp [joinWith, str, List.append_assoc]
          unfold words
          rw [hstep, wordsAux_chunk w _ [] hw.2]
          simp only [List.append_nil]
          have hsp : isWs ' ' = true := rfl
          have hrev : w.reverse ≠ [] := by simpa using hw.1
          simp [wordsAux, hsp, hrev]
          exact ih hrest

/-- Appending a suffix after a single-space join glues it onto the last word. -/
lemma joinWith_last_append : ∀ (ws : List (List Char)) (w suffix : List Char),
    joinWith (str " ") (ws ++ [w]) ++ suffix =
      joinWith (str " ") (ws ++ [w ++ suffix]) := by
  intro ws
  induction ws with
  | nil => intro w suffix; rfl
  | cons a ws ih =>
      intro w suffix
      cases ws with
      | nil => simp [joinWith, List.append_assoc]
      | cons b rest =>
          have h1 : (a :: b :: rest) ++ [w] = a :: b :: (rest ++ [w]) := by simp
          have h2 : (a :: b :: rest) ++ [w ++ suffix] =
              a :: b :: (rest ++ [w ++ suffix]) := by simp
          rw [h1, h2]
          show (a ++ str " " ++ joinWith (str " ") (b :: (rest ++ [w]))) ++ suffix =
            a ++ str " " ++ joinWith (str " ") (b :: (rest ++ [w ++ suffix]))
          have h3 : (b :: rest) ++ [w] = b :: (rest ++ [w]) := by simp
          have h4 : (b :: rest) ++ [w ++ suffix] = b :: (rest ++ [w ++ suffix]) := by simp
          rw [List.append_assoc, List.append_assoc, ← h3, ← h4, ih w suffix]
          simp [List.append_assoc]

/-- A normalized string (equal to the single-space join of its words) with at
most `N` words is a fixed point of `truncate_text` at bound `N`. -/
lemma truncate_text_fixed (s : List Char) (N : Nat)
    (hnorm : s = joinWith (str " ") (words s))
    (hlen : (words s).length ≤ N) : truncate_text s N = s := by
  have hnot : ¬ N < (words s).length := not_lt.mpr hlen
  rw [truncate_text, if_neg hnot, List.take_of_length_le hlen, List.append_nil]
  exact hnorm.symm

/-- For a positive bound, every `truncate_text` output is normalized and has at
most `N` words. -/
lemma truncate_text_normal (t : List Char) (N : Nat) (hN : 1 ≤ N) :
    truncate_text t N = joinWith (str " ") (words (truncate_text t N)) ∧
    (words (truncate_text t N)).length ≤ N := by
  by_cases hle : (words t).length ≤ N
  · have hnot : ¬ N < (words t).length := not_lt.mpr hle
    have h1 : truncate_text t N = joinWith (str " ") (words t) := by
      rw [truncate_text, if_neg hnot, List.take_of_length_le hle, List.append_nil]
    have h2 : words (joinWith (str " ") (words t)) = words t :=
      words_joinWith (words t) (words_clean t)
    rw [h1, h2]
    exact ⟨rfl, hle⟩
  · push_neg at hle
    have hlt : N < (words t).length := hle
    have hlen : ((words t).take N).length = N := by
      rw [List.length_take]
      omega
    have hne : (words t).take N ≠ [] := by
      intro h
      rw [h] at hlen
      simp at hlen
      omega
    obtain ⟨init, last, heq⟩ : ∃ init last, (words t).take N = init ++ [last] :=
      ⟨((words t).take N).dropLast, ((words t).take N).getLast hne,
        (List.dropLast_append_getLast hne).symm⟩
    have hmem : ∀ w ∈ init ++ [last], w ≠ [] ∧ ∀ c ∈ w, isWs c = false := by
      intro w hw
      exact words_clean t w (List.take_subset N (words t) (heq ▸ hw))
    have hclean : ∀ w ∈ init ++ [last ++ str "..."],
        w ≠ [] ∧ ∀ c ∈ w, isWs c = false := by
      intro w hw
      rcases List.mem_append.mp hw with h | h
      · exact hmem w (List.mem_append_left _ h)
      · simp only [List.mem_singleton] at h
        subst h
        have hlast := hmem last (List.mem_append_right _ (by simp))
        constructor
        · intro hcontra
          exact absurd (List.append_eq_nil.mp hcontra).2 (by decide)
        · intro c hc
          rcases List.mem_append.mp hc with h | h
          · exact hlast.2 c h
          · have h' : c ∈ ('.' :: '.' :: '.' :: []) := h
            have : c = '.' := by simpa using h'
            subst this
            rfl
    have hT : truncate_text t N = joinWith (str " ") (init ++ [last ++ str "..."]) := by
      rw [truncate_text, if_pos hlt, heq, joinWith_last_append]
    have hW : words (truncate_text t N) = init ++ [last ++ str "..."] := by
      rw [hT]
      exact words_joinWith _ hclean
    constructor
    · rw [hW, ← hT]
    · rw [hW]
      have hcount : (init ++ [last]).length = N := heq ▸ hlen
      simp only [List.length_append, List.length_singleton] at hcount ⊢
      omega

/-- C1: for every input, `generate_slide_deck` returns a deck whose slide list
has exactly 5 entries whose kinds are, in order, title, definition, example,
related, summary — whether or not `related` is empty. -/
theorem generate_always_five_slides (concept_name definition : List Char)
    (related : List (List Char)) (audience_level now : List Char) :
    (generate_slide_deck concept_name definition related audience_level
      now).1.slides.length = 5 ∧
    (generate_slide_deck concept_name definition related audience_level
      now).1.slides.map Slide.type =
      [str "title", str "definition", str "example", str "related",
        str "summary"] :=
  ⟨rfl, rfl⟩

/-- C2: `generate_slide_deck` is deterministic in its four inputs — two calls
that differ only in the generation timestamp produce identical slide lists,
identical concept and audience-level fields, and an identical narration
string. -/
theorem generate_deterministic (concept_name definition : List Char)
    (related : List (List Char)) (audience_level now1 now2 : List Char) :
    (generate_slide_deck concept_name definition related audience_level
      now1).1.slides =
      (generate_slide_deck concept_name definition related audience_level
        now2).1.slides ∧
    (generate_slide_deck concept_name definition related audience_level
      now1).1.concept =
      (generate_slide_deck concept_name definition related audience_level
        now2).1.concept ∧
    (generate_slide_deck concept_name definition related audience_level
      now1).1.audience_level =
      (generate_slide_deck concept_name definition related audience_level
        now2).1.audience_level ∧
    (generate_slide_deck concept_name definition related audience_level
      now1).2 =
      (generate_slide_deck concept_name definition related audience_level
        now2).2 :=
  ⟨rfl, rfl, rfl, rfl⟩

/-- C3: `truncate_text` keeps the first `N` whitespace-delimited words rejoined
with single spaces and appends the literal ellipsis exactly when the text had
more than `N` words (`truncateSpec` restates the spec's rule), and the call
sites use bound 15 for the subtitle, 20 for the definition bullet, 20 for the
summary bullet, and 6 for the example title. -/
theorem truncate_matches_spec_and_call_sites :
    (∀ text N, truncate_text text N = truncateSpec text N) ∧
    (∀ n d r l ts,
      (slideAt (deckOf n d r l ts) 0).bind Slide.subtitle =
        some (truncate_text d 15) ∧
      slideBullets (deckOf n d r l ts) 1 = some [truncate_text d 20] ∧
      slideBullets (deckOf n d r l ts) 4 = some [truncate_text d 20] ∧
      (slideAt (deckOf n d r l ts) 2).map Slide.title =
        some (str "Simple example: " ++ truncate_text (exampleBrief r) 6)) := by
  constructor
  · intro text N
    by_cases h : (words text).length ≤ N
    · rw [truncate_text, truncateSpec, if_pos h, if_neg (not_lt.mpr h),
        List.take_of_length_le h, List.append_nil]
    · rw [truncate_text, truncateSpec, if_neg h, if_pos (not_le.mp h)]
  · intro n d r l ts
    exact ⟨rfl, rfl, rfl, rfl⟩

/-- C4 counterexample: the string `"a  b"` (double space) has at most 2
whitespace-delimited words, yet truncating it at bound 2 does not return the
same string — the claim as stated fails on non-normalized whitespace. -/
theorem truncate_idem_cex :
    (words (str "a  b")).length ≤ 2 ∧
      truncate_text (str "a  b") 2 ≠ str "a  b" := by
  decide

/-- C4 (amended): truncation is idempotent on normalized strings — any string
equal to the single-space rejoin of its words with at most `N` words is
returned unchanged with no ellipsis added; in particular (for positive `N`)
every output of `truncate_text` at bound `N` is such a string, so truncating an
output again with the same `N` returns it unchanged. -/
theorem truncate_idem :
    (∀ s N, s = joinWith (str " ") (words s) → (words s).length ≤ N →
      truncate_text s N = s) ∧
    (∀ t N, 1 ≤ N →
      (words (truncate_text t N)).length ≤ N ∧
      truncate_text (truncate_text t N) N = truncate_text t N) := by
  refine ⟨fun s N h1 h2 => truncate_text_fixed s N h1 h2, fun t N hN => ?_⟩
  obtain ⟨hnorm, hlen⟩ := truncate_text_normal t N hN
  exact ⟨hlen, truncate_text_fixed _ N hnorm hlen⟩

/-- C4 witness: the amended theorem applied at concrete inputs — `"a b"` is a
fixed point at bound 2, and re-truncating the output of
`truncate_text "one two three" 2` changes nothing. -/
theorem truncate_idem_w :
    truncate_text (str "a b") 2 = str "a b" ∧
    truncate_text (truncate_text (str "one two three") 2) 2 =
      truncate_text (str "one two three") 2 :=
  ⟨truncate_idem.1 (str "a b") 2 (by decide) (by decide),
   (truncate_idem.2 (str "one two three") 2 (by decide)).2⟩

/-- C5: with `related` empty, the example slide still has non-empty bullets and
non-empty notes (the generic-placeholder fallback), the related slide's bullet
list is exactly the single placeholder entry, and the related slide's notes is
the fixed no-topics sentence. -/
theorem related_empty_fallback (n d l ts : List Char) :
    (∃ bs, slideBullets (deckOf n d [] l ts) 2 = some bs ∧ bs ≠ []) ∧
    (∃ nt, slideNotes (deckOf n d [] l ts) 2 = some nt ∧ nt ≠ []) ∧
    slideBullets (deckOf n d [] l ts) 3 =
      some [str "Further reading not available"] ∧
    slideNotes (deckOf n d [] l ts) 3 =
      some (str "Related topics you might want to learn next: No related topics available..") := by
  refine ⟨⟨_, rfl, by simp⟩, ⟨_, rfl, ?_⟩, rfl, rfl⟩
  intro hcontra
  exact absurd (List.append_eq_nil.mp hcontra).2 (by decide)

/-- C6: the narration string is the blank-line-separated concatenation of the
fixed greeting mentioning the concept name (the title slide itself carries no
notes), then the notes of the definition, example and related slides in slide
order, then the summary sentence (the summary slide's notes). -/
theorem narration_assembly (n d : List Char) (r : List (List Char))
    (l ts : List Char) :
    ∃ n1 n2 n3 n4,
      slideNotes (deckOf n d r l ts) 1 = some n1 ∧
      slideNotes (deckOf n d r l ts) 2 = some n2 ∧
      slideNotes (deckOf n d r l ts) 3 = some n3 ∧
      slideNotes (deckOf n d r l ts) 4 = some n4 ∧
      slideNotes (deckOf n d r l ts) 0 = none ∧
      (generate_slide_deck n d r l ts).2 =
        TITLE_INTRO_TEMPLATE n ++ str "\n\n" ++ n1 ++ str "\n\n" ++ n2 ++
          str "\n\n" ++ n3 ++ str "\n\n" ++ n4 := by
  refine ⟨_, _, _, _, rfl, rfl, rfl, rfl, rfl, ?_⟩
  show joinWith (str "\n\n") _ = _
  simp only [joinWith, List.append_assoc]

/-- C7: `get_concept_info` is an exact, case-sensitive lookup — on a stored key
it returns exactly the stored (definition, related) pair, and on an absent key
it returns the NOT_FOUND outcome `(none, [])`; both paths are total, no error
is raised. -/
theorem lookup_exact_match
    (kg : List (List Char × (List Char × List (List Char))))
    (name : List Char) :
    (∀ d r, lookupKG kg name = some (d, r) →
      get_concept_info kg name = (some d, r)) ∧
    (lookupKG kg name = none → get_concept_info kg name = (none, [])) := by
  constructor
  · intro d r h
    simp [get_concept_info, h]
  · intro h
    simp [get_concept_info, h]

/-- C7 witness: on the literal table, `"Trees"` returns its stored pair and
`"Quantum Foo"` returns the NOT_FOUND outcome. -/
theorem lookup_exact_match_w :
    get_concept_info knowledge_graph (str "Trees") =
      (some (str "A hierarchical data structure with nodes."),
        [str "Binary Tree", str "Graphs"]) ∧
    get_concept_info knowledge_graph (str "Quantum Foo") = (none, []) :=
  ⟨(lookup_exact_match knowledge_graph (str "Trees")).1
      (str "A hierarchical data structure with nodes.")
      [str "Binary Tree", str "Graphs"] (by decide),
   (lookup_exact_match knowledge_graph (str "Quantum Foo")).2 (by decide)⟩

/-- C8: when the queried concept is absent from the loaded table, `main`
reports not-found and returns cleanly — no deck file, narration file, or
visualization stub is written. -/
theorem main_not_found
    (kg : List (List Char × (List Char × List (List Char))))
    (q lvl now : List Char) (h : lookupKG kg q = none) :
    mainModel kg q lvl now =
      { notFoundReported := true, slidesFile := none, scriptFile := none,
        manimFile := none } := by
  simp [mainModel, h]

/-- C8 witness: querying the unknown concept `"Quantum Foo"` against the
literal table reports not-found and writes nothing. -/
theorem main_not_found_w :
    mainModel knowledge_graph (str "Quantum Foo") (str "beginner")
      (str "2024-01-01T00:00:00") =
      { notFoundReported := true, slidesFile := none, scriptFile := none,
        manimFile := none } :=
  main_not_found knowledge_graph (str "Quantum Foo") (str "beginner")
    (str "2024-01-01T00:00:00") (by decide)

/-- C9: with `related` non-empty the example slide is built from
`related[0]` — its example string is "a simple case involving " followed by the
first related element, its title is that string 6-word-truncated after the
fixed label, its bullets are the three fixed-wording phrases, its notes come
from the example template — and for concept "Trees" with related
["Binary Tree", "Graphs"] the example slide's notes reference "Binary Tree". -/
theorem example_slide_uses_first_related :
    (∀ (n d r0 : List Char) (rest : List (List Char)) (l ts : List Char),
      slideAt (deckOf n d (r0 :: rest) l ts) 2 = some
        { type := str "example"
          title := str "Simple example: " ++
            truncate_text (str "a simple case involving " ++ r0) 6
          subtitle := none
          bullets := some [str "Set up the scenario",
            str "Apply the core idea of " ++ n,
            str "Observe the result / takeaway"]
          notes := some (str "Example: Consider " ++
            (str "a simple case involving " ++ r0) ++
            str ". This demonstrates the main idea: " ++
            (str "how " ++ n ++ str " uses " ++ r0 ++
              str " in structure/operation") ++ str ".")
          duration_sec := 12 }) ∧
    (∃ pre post,
      slideNotes (deckOf (str "Trees")
        (str "A hierarchical data structure with nodes.")
        [str "Binary Tree", str "Graphs"] (str "beginner") (str "T")) 2 =
      some (pre ++ str "Binary Tree" ++ post)) :=
  ⟨fun _ _ _ _ _ _ => rfl,
   ⟨str "Example: Consider a simple case involving ",
    str ". This demonstrates the main idea: how Trees uses Binary Tree in structure/operation.",
    by decide⟩⟩

/-- C10: `audience_level` is never validated — any value other than exactly
"beginner" (case-sensitive) selects the advanced definition template, and
generation completes normally with the full 5-slide deck. -/
theorem audience_level_not_validated (n d : List Char)
    (r : List (List Char)) (l ts : List Char) (h : l ≠ str "beginner") :
    slideNotes (deckOf n d r l ts) 1 =
      some (DEFINITION_TEMPLATE_ADVANCED n d) ∧
    (deckOf n d r l ts).slides.length = 5 ∧
    (deckOf n d r l ts).audience_level = l := by
  refine ⟨?_, rfl, rfl⟩
  have hbase : slideNotes (deckOf n d r l ts) 1 =
      some (if l = str "beginner" then DEFINITION_TEMPLATE_BEGINNER n d
        else DEFINITION_TEMPLATE_ADVANCED n d) := rfl
  rw [hbase, if_neg h]

/-- C10 witness: the capitalized level "Beginner" (and hence any non-exact
string) selects the advanced template. -/
theorem audience_level_not_validated_w :
    slideNotes (deckOf (str "Trees") (str "d") [] (str "Beginner")
      (str "T")) 1 =
      some (DEFINITION_TEMPLATE_ADVANCED (str "Trees") (str "d")) :=
  (audience_level_not_validated (str "Trees") (str "d") [] (str "Beginner")
    (str "T") (by decide)).1

end SlidesKG
